import Mathlib

/-!
# Verification of the threadx-mcpp shim layer

A shallow embedding of the threadx-mcpp C++ wrapper (thread.cpp, mutex.h /
mutex.cpp, semaphore.h / semaphore.cpp, tick_timer.h) over the ThreadX
native kernel API.  Each wrapper operation is modelled as a pure function
from the kernel status codes it observes to the list of native kernel
calls it issues together with its observable result.  Machine integers
(UINT, ULONG) are modelled as Nat; the 32-bit semaphore counter wraps
modulo 2^32 where the kernel increments it.
-/

set_option autoImplicit false

namespace threadx

/-! ### Native kernel constants (tx_api.h) -/

/-- Successful-completion status code TX_SUCCESS. -/
def TX_SUCCESS : Nat := 0

/-- Infinite-wait tick value TX_WAIT_FOREVER (0xFFFFFFFF). -/
def TX_WAIT_FOREVER : Nat := 4294967295

/-- Kernel thread state TX_READY. -/
def TX_READY : Nat := 0

/-- Kernel thread state TX_COMPLETED. -/
def TX_COMPLETED : Nat := 1

/-- Kernel thread state TX_TERMINATED. -/
def TX_TERMINATED : Nat := 2

/-- Entry/exit notification id TX_THREAD_EXIT. -/
def TX_THREAD_EXIT : Nat := 1

/-- Modulus of the 32-bit ULONG type. -/
def ULONG_MOD : Nat := 4294967296

/-- Alias used by tick_timer.h: `constexpr ULONG infinite_delay = TX_WAIT_FOREVER;`. -/
def infinite_delay : Nat := TX_WAIT_FOREVER

/-! ### tick_timer (tick_timer.h) -/

/-- A tick_timer::duration: a count of kernel ticks, each of period
1/tick_rate_Hz seconds (`std::chrono::duration<ULONG, ratio<1, tick_rate_Hz>>`). -/
structure duration where
  count : Nat
deriving DecidableEq, Repr

/-- Conversion from tick_timer.h: `to_ticks(duration) = duration.count()`. -/
def to_ticks (d : duration) : Nat := d.count

/-- A tick_timer::time_point: a duration since the clock epoch. -/
structure time_point where
  since_epoch : duration
deriving DecidableEq, Repr

/-- Conversion from tick_timer.h: `to_ticks(time) = to_ticks(time.time_since_epoch())`. -/
def time_point.to_ticks (t : time_point) : Nat := threadx.to_ticks t.since_epoch

/-- Distinguished duration from tick_timer.h:
`constexpr tick_timer::duration infinity { native::infinite_delay };`. -/
def infinity : duration := ⟨infinite_delay⟩

/-! ### Kernel call trace alphabet

Each constructor is one native kernel entry point that the shim invokes,
together with the arguments the shim computes for it. -/

/-- One invocation of a native ThreadX kernel entry point. -/
inductive KernelCall where
  | mutex_get (wait_option : Nat)
  | mutex_put
  | mutex_create
  | semaphore_get (wait_option : Nat)
  | semaphore_put
  | semaphore_create (name : String) (initial_count : Nat)
  | thread_create
  | thread_terminate
  | thread_delete
  | thread_suspend
  | thread_resume
  | thread_priority_change (new_priority : Nat)
  | thread_sleep (timer_ticks : Nat)
  | thread_relinquish
  | entry_exit_notify
deriving DecidableEq, Repr

/-- Observable outcome of one wrapper operation: a boolean returned to the
caller, a void return, or an assertion failure. No constructor carries a
raw kernel status code. -/
inductive OpResult where
  | retBool (b : Bool)
  | retUnit
  | assertFailed
deriving DecidableEq, Repr

/-! ### mutex (mutex.h / mutex.cpp)

Each operation takes the status code the kernel returns for its single
native call and produces the issued call list and the observable result. -/

/-- Private `mutex::get(timeout)`: one tx_mutex_get with the timeout converted
to ticks; returns `result == TX_SUCCESS`. -/
def mutex.get (timeout : duration) (status : Nat) : List KernelCall × OpResult :=
  ([KernelCall.mutex_get (to_ticks timeout)], OpResult.retBool (status == TX_SUCCESS))

/-- Public `mutex::lock()`: `(void)get(infinity);` — the boolean is discarded. -/
def mutex.lock (status : Nat) : List KernelCall × OpResult :=
  ((mutex.get infinity status).1, OpResult.retUnit)

/-- Public `mutex::try_lock()`: `return get(tick_timer::duration(0));`. -/
def mutex.try_lock (status : Nat) : List KernelCall × OpResult :=
  mutex.get ⟨0⟩ status

/-- Public `mutex::try_lock_for(rel_time)`: `return get(rel_time);`
(after the duration cast to tick_timer::duration). -/
def mutex.try_lock_for (rel_time : duration) (status : Nat) : List KernelCall × OpResult :=
  mutex.get rel_time status

/-- Public `mutex::unlock()`: one tx_mutex_put, asserting its status is
TX_SUCCESS. -/
def mutex.unlock (status : Nat) : List KernelCall × OpResult :=
  ([KernelCall.mutex_put],
    if status = TX_SUCCESS then OpResult.retUnit else OpResult.assertFailed)

/-- The mutex constructor: one tx_mutex_create whose status code is discarded
(neither checked nor asserted in mutex.cpp). -/
def mutex.ctor (status : Nat) : List KernelCall × OpResult :=
  ([KernelCall.mutex_create], OpResult.retUnit)

/-! ### semaphore (semaphore.h / semaphore.cpp) -/

/-- Private `semaphore::get(timeout)`: one tx_semaphore_get with the timeout
converted to ticks; returns `result == TX_SUCCESS`. -/
def semaphore.get (timeout : duration) (status : Nat) : List KernelCall × OpResult :=
  ([KernelCall.semaphore_get (to_ticks timeout)], OpResult.retBool (status == TX_SUCCESS))

/-- Public `semaphore::acquire()`: `(void)get(infinity);`. -/
def semaphore.acquire (status : Nat) : List KernelCall × OpResult :=
  ((semaphore.get infinity status).1, OpResult.retUnit)

/-- Public `semaphore::try_acquire()`: `return get(tick_timer::duration(0));`. -/
def semaphore.try_acquire (status : Nat) : List KernelCall × OpResult :=
  semaphore.get ⟨0⟩ status

/-- Public `semaphore::try_acquire_for(rel_time)`: `return get(rel_time);`
after the duration cast. -/
def semaphore.try_acquire_for (rel_time : duration) (status : Nat) : List KernelCall × OpResult :=
  semaphore.get rel_time status

/-- Private `semaphore::put(update)`: the loop
`success = true; while (success && update > 0) { success = (TX_SUCCESS == tx_semaphore_put(this)); update--; }`.
The oracle gives the status the kernel returns for the i-th tx_semaphore_put. -/
def semaphore.put : Nat → (Nat → Nat) → Nat → List KernelCall × Bool
  | 0, _, _ => ([], true)
  | u + 1, oracle, i =>
    if oracle i = TX_SUCCESS then
      let rest := semaphore.put u oracle (i + 1)
      (KernelCall.semaphore_put :: rest.1, rest.2)
    else
      ([KernelCall.semaphore_put], false)

/-- Public `semaphore::release(update)`: `(void)put(update);` — the success
flag of put is discarded. -/
def semaphore.release (update : Nat) (oracle : Nat → Nat) : List KernelCall × OpResult :=
  ((semaphore.put update oracle 0).1, OpResult.retUnit)

/-- Protected `semaphore::semaphore(max, desired, name)`: one
tx_semaphore_create receiving only the name and the initial count `desired`
(the `max` parameter is unused by the body), asserting TX_SUCCESS. -/
def semaphore.ctor (max desired : Nat) (name : String) (status : Nat) :
    List KernelCall × OpResult :=
  ([KernelCall.semaphore_create name desired],
    if status = TX_SUCCESS then OpResult.retUnit else OpResult.assertFailed)

/-- The `counting_semaphore<MAX_VALUE>` constructor:
`semaphore(MAX_VALUE, desired, "counting_semaphore")`. -/
def counting_semaphore.ctor (MAX_VALUE desired status : Nat) : List KernelCall × OpResult :=
  semaphore.ctor MAX_VALUE desired "counting_semaphore" status

/-- The ceiling advertised by `counting_semaphore<MAX_VALUE>::max()`. -/
def counting_semaphore.max (MAX_VALUE : Nat) : Nat := MAX_VALUE

/-- The `binary_semaphore` constructor: `semaphore(1, desired, "binary_semaphore")`
with `desired` defaulting to 0. -/
def binary_semaphore.ctor (desired status : Nat) : List KernelCall × OpResult :=
  semaphore.ctor 1 desired "binary_semaphore" status

/-! ### Kernel-side semaphore model

The kernel is external to this repository; these definitions model the
documented behaviour of its semaphore primitives on the stored 32-bit
count: tx_semaphore_create stores the initial count, tx_semaphore_put
increments it (mod 2^32), and tx_semaphore_get decrements it when it is
positive and otherwise suspends the caller (here: returns none). -/

/-- Kernel semaphore control block: the stored acquirable count. -/
structure TX_SEMAPHORE where
  tx_semaphore_count : Nat
deriving DecidableEq, Repr

/-- Kernel effect of tx_semaphore_create with a given initial count. -/
def tx_semaphore_create (initial_count : Nat) : TX_SEMAPHORE :=
  ⟨initial_count % ULONG_MOD⟩

/-- Kernel effect of tx_semaphore_put: increment the 32-bit count. -/
def tx_semaphore_put (s : TX_SEMAPHORE) : TX_SEMAPHORE :=
  ⟨(s.tx_semaphore_count + 1) % ULONG_MOD⟩

/-- Immediate outcome of tx_semaphore_get: some decremented state when the
count is positive, none when the caller would be suspended. -/
def tx_semaphore_get_nb (s : TX_SEMAPHORE) : Option TX_SEMAPHORE :=
  if s.tx_semaphore_count > 0 then some ⟨s.tx_semaphore_count - 1⟩ else none

/-- Replay of the semaphore_put calls of a trace against the kernel
semaphore state. -/
def run_sem_calls : List KernelCall → TX_SEMAPHORE → TX_SEMAPHORE
  | [], s => s
  | KernelCall.semaphore_put :: rest, s => run_sem_calls rest (tx_semaphore_put s)
  | _ :: rest, s => run_sem_calls rest s

/-! ### Observers (const member functions)

Each observer is modelled as the value it reads from the wrapped kernel
control block paired with the (empty) list of kernel calls it issues; it
takes and returns no mutable state. -/

/-- Kernel mutex control block fields the shim reads. -/
structure TX_MUTEX where
  tx_mutex_owner : Option Nat
deriving DecidableEq, Repr

/-- Kernel thread control block fields the shim reads. -/
structure TX_THREAD where
  tx_thread_user_priority : Nat
  tx_thread_state : Nat
deriving DecidableEq, Repr

/-- Observer `thread::get_priority()`: `return tx_thread_user_priority;`. -/
def thread.get_priority (t : TX_THREAD) : Nat × List KernelCall :=
  (t.tx_thread_user_priority, [])

/-- Observer `mutex::get_locking_thread()`: `return tx_mutex_owner;` (none models the
nullptr returned for an unlocked mutex). -/
def mutex.get_locking_thread (m : TX_MUTEX) : Option Nat × List KernelCall :=
  (m.tx_mutex_owner, [])

/-- Observer `semaphore::get_count()`: `return tx_semaphore_count;`. -/
def semaphore.get_count (s : TX_SEMAPHORE) : Nat × List KernelCall :=
  (s.tx_semaphore_count, [])

/-! ### thread (thread.h / thread.cpp) -/

/-- Public thread states of `thread::state`. -/
inductive thread.state where
  | running
  | ready
  | completed
  | terminated
  | suspended
deriving DecidableEq, Repr

/-- Observer `thread::get_state()`: the switch on tx_thread_state; `is_current` is the
result of the `get_current() == this` comparison evaluated in the TX_READY
branch. -/
def thread.get_state (tx_thread_state : Nat) (is_current : Bool) : thread.state :=
  if tx_thread_state = TX_READY then
    (if is_current then thread.state.running else thread.state.ready)
  else if tx_thread_state = TX_COMPLETED then thread.state.completed
  else if tx_thread_state = TX_TERMINATED then thread.state.terminated
  else thread.state.suspended

/-- The thread destructor: tx_thread_terminate (asserting TX_SUCCESS) when
tx_thread_state differs from TX_COMPLETED, then tx_thread_delete (asserting
TX_SUCCESS). A failing assertion aborts, so no further call follows it. -/
def thread.dtor (tx_thread_state term_status del_status : Nat) : List KernelCall × OpResult :=
  if tx_thread_state = TX_COMPLETED then
    ([KernelCall.thread_delete],
      if del_status = TX_SUCCESS then OpResult.retUnit else OpResult.assertFailed)
  else if term_status = TX_SUCCESS then
    ([KernelCall.thread_terminate, KernelCall.thread_delete],
      if del_status = TX_SUCCESS then OpResult.retUnit else OpResult.assertFailed)
  else
    ([KernelCall.thread_terminate], OpResult.assertFailed)

/-- The thread constructor: one tx_thread_create, asserting TX_SUCCESS. -/
def thread.ctor (status : Nat) : List KernelCall × OpResult :=
  ([KernelCall.thread_create],
    if status = TX_SUCCESS then OpResult.retUnit else OpResult.assertFailed)

/-- Operation `thread::suspend()`: one tx_thread_suspend, status code discarded. -/
def thread.suspend (status : Nat) : List KernelCall × OpResult :=
  ([KernelCall.thread_suspend], OpResult.retUnit)

/-- Operation `thread::resume()`: one tx_thread_resume, status code discarded. -/
def thread.resume (status : Nat) : List KernelCall × OpResult :=
  ([KernelCall.thread_resume], OpResult.retUnit)

/-- Operation `thread::set_priority(prio)`: one tx_thread_priority_change, status code
discarded. -/
def thread.set_priority (prio status : Nat) : List KernelCall × OpResult :=
  ([KernelCall.thread_priority_change prio], OpResult.retUnit)

/-- Operation `this_thread::sleep_for(rel_time)`: one tx_thread_sleep on the tick
conversion of the duration, asserting TX_SUCCESS. -/
def this_thread.sleep_for (rel_time : duration) (status : Nat) : List KernelCall × OpResult :=
  ([KernelCall.thread_sleep (to_ticks rel_time)],
    if status = TX_SUCCESS then OpResult.retUnit else OpResult.assertFailed)

/-- Operation `this_thread::yield()`: one tx_thread_relinquish, no status observed. -/
def this_thread.yield : List KernelCall × OpResult :=
  ([KernelCall.thread_relinquish], OpResult.retUnit)

/-! ### thread::join (thread.cpp) -/

/-- Callback `thread::join_exit_callback(t, id)`: when id equals TX_THREAD_EXIT it
releases (one tx_semaphore_put) the semaphore passed as the registered
entry/exit parameter; for every other id it does nothing. The parameter
semaphore is passed and returned explicitly. -/
def thread.join_exit_callback (id : Nat) (exit_cond : TX_SEMAPHORE) : TX_SEMAPHORE :=
  if id = TX_THREAD_EXIT then tx_semaphore_put exit_cond else exit_cond

/-- Kernel calls the callback issues for a given notification id. -/
def thread.join_exit_callback_calls (id : Nat) : List KernelCall :=
  if id = TX_THREAD_EXIT then [KernelCall.semaphore_put] else []

/-- Behaviour of one `thread::join()` invocation. -/
structure JoinResult where
  calls : List KernelCall
  callback_param : TX_SEMAPHORE
  waits_on : TX_SEMAPHORE
deriving Repr

/-- Operation `thread::join()`: constructs a local `binary_semaphore exit_cond;`
(default initial count 0), registers join_exit_callback with `&exit_cond`
as parameter via set_entry_exit_callback, then blocks in
`exit_cond.acquire()`, that is a tx_semaphore_get with infinite wait on
that same semaphore. -/
def thread.join (ctor_status notify_status get_status : Nat) : JoinResult :=
  let exit_cond := tx_semaphore_create 0
  { calls := (binary_semaphore.ctor 0 ctor_status).1
        ++ [KernelCall.entry_exit_notify]
        ++ (semaphore.get infinity get_status).1,
    callback_param := exit_cond,
    waits_on := exit_cond }

/-! ### Helper lemmas about the semaphore put loop -/

/-- The put loop issues at most one kernel call per requested count. -/
theorem semaphore.put_length_le (u : Nat) (oracle : Nat → Nat) (i : Nat) :
    (semaphore.put u oracle i).1.length ≤ u := by
  induction u generalizing i with
  | zero => simp [semaphore.put]
  | succ n ih =>
    simp only [semaphore.put]
    split
    · have h := ih (i + 1)
      simp only [List.length_cons]
      omega
    · simp

/-- The put loop issues only semaphore_put calls. -/
theorem semaphore.put_calls_are_puts (u : Nat) (oracle : Nat → Nat) (i : Nat) :
    ∀ c ∈ (semaphore.put u oracle i).1, c = KernelCall.semaphore_put := by
  induction u generalizing i with
  | zero => simp [semaphore.put]
  | succ n ih =>
    simp only [semaphore.put]
    split
    · intro c hc
      rcases List.mem_cons.mp hc with h | h
      · exact h
      · exact ih (i + 1) c h
    · simp

/-- When the kernel reports success for every put, the loop issues exactly
one semaphore_put per requested count and reports success. -/
theorem semaphore.put_all_success (u : Nat) (oracle : Nat → Nat) (i : Nat)
    (h : ∀ j, oracle j = TX_SUCCESS) :
    semaphore.put u oracle i = (List.replicate u KernelCall.semaphore_put, true) := by
  induction u generalizing i with
  | zero => simp [semaphore.put]
  | succ n ih => simp [semaphore.put, h, ih (i + 1), List.replicate_succ]

/-- When the first kernel failure happens at relative position k of the loop,
the loop issues exactly k + 1 semaphore_put calls and reports failure. -/
theorem semaphore.put_first_failure (k : Nat) :
    ∀ (u i : Nat) (oracle : Nat → Nat), k < u →
    (∀ j, j < k → oracle (i + j) = TX_SUCCESS) → oracle (i + k) ≠ TX_SUCCESS →
    semaphore.put u oracle i = (List.replicate (k + 1) KernelCall.semaphore_put, false) := by
  induction k with
  | zero =>
    intro u i oracle hu _ hfail
    match u, hu with
    | n + 1, _ =>
      simp only [semaphore.put]
      rw [if_neg (by simpa using hfail)]
      simp [List.replicate_succ]
  | succ k ih =>
    intro u i oracle hu hsucc hfail
    match u, hu with
    | n + 1, hu =>
      have h0 : oracle i = TX_SUCCESS := by simpa using hsucc 0 (Nat.succ_pos k)
      have hrec := ih n (i + 1) oracle (by omega)
        (fun j hj => by
          have h := hsucc (j + 1) (by omega)
          rw [show i + 1 + j = i + (j + 1) by omega]
          exact h)
        (by
          rw [show i + 1 + k = i + (k + 1) by omega]
          exact hfail)
      simp only [semaphore.put, if_pos h0, hrec]
      simp [List.replicate_succ]

/-! ### Claim theorems -/

/-- C1: thread::join creates a local binary semaphore with initial count 0,
registers join_exit_callback on the target thread with that semaphore as
the callback parameter, and blocks by acquiring that same semaphore with
infinite wait; the acquire cannot complete while the count is 0, the
callback invoked with TX_THREAD_EXIT releases exactly the registered
semaphore (one tx_semaphore_put, making the acquire completable), and the
callback leaves the semaphore untouched and issues no call for any other
notification id. -/
theorem C1_join_exit_semaphore_protocol :
    (∀ cs ns gs, (thread.join cs ns gs).calls
        = [KernelCall.semaphore_create "binary_semaphore" 0,
           KernelCall.entry_exit_notify,
           KernelCall.semaphore_get TX_WAIT_FOREVER]
      ∧ (thread.join cs ns gs).callback_param = (thread.join cs ns gs).waits_on
      ∧ (thread.join cs ns gs).waits_on.tx_semaphore_count = 0)
    ∧ tx_semaphore_get_nb (thread.join 0 0 0).waits_on = none
    ∧ thread.join_exit_callback TX_THREAD_EXIT (thread.join 0 0 0).callback_param
        = ⟨1⟩
    ∧ thread.join_exit_callback_calls TX_THREAD_EXIT = [KernelCall.semaphore_put]
    ∧ tx_semaphore_get_nb
        (thread.join_exit_callback TX_THREAD_EXIT (thread.join 0 0 0).callback_param)
        = some ⟨0⟩
    ∧ (∀ id sem, id ≠ TX_THREAD_EXIT →
        thread.join_exit_callback id sem = sem ∧ thread.join_exit_callback_calls id = []) := by
  refine ⟨fun cs ns gs => ⟨rfl, rfl, rfl⟩, by decide, by decide, by decide, by decide, ?_⟩
  intro id sem h
  constructor
  · simp [thread.join_exit_callback, h]
  · simp [thread.join_exit_callback_calls, h]

/-- C1 witness: the conditional part of C1 at the concrete notification id
TX_THREAD_ENTRY (0), which differs from TX_THREAD_EXIT. -/
theorem C1_join_exit_semaphore_protocol_witness :
    thread.join_exit_callback 0 ⟨0⟩ = ⟨0⟩ ∧ thread.join_exit_callback_calls 0 = [] :=
  C1_join_exit_semaphore_protocol.2.2.2.2.2 0 ⟨0⟩ (by decide)

/-- C2 counterexample: semaphore::release(2) with both kernel puts
succeeding issues two kernel calls in a single invocation, and the
destructor of a ready thread issues two kernel calls, contradicting the
claim that no operation issues multiple kernel calls. -/
theorem C2_counterexample_release_two_calls :
    (semaphore.release 2 (fun _ => TX_SUCCESS)).1.length = 2
    ∧ ¬ (semaphore.release 2 (fun _ => TX_SUCCESS)).1.length ≤ 1
    ∧ (thread.dtor TX_READY TX_SUCCESS TX_SUCCESS).1.length = 2
    ∧ ¬ (thread.dtor TX_READY TX_SUCCESS TX_SUCCESS).1.length ≤ 1 := by
  refine ⟨rfl, by decide, rfl, by decide⟩

/-- C2 amended: every public operation except semaphore::release (and its
internal put loop), the thread destructor and thread::join performs at most
one kernel call per invocation; semaphore::release(n) performs at most n
calls, all of the single entry point tx_semaphore_put; the thread
destructor performs at most two calls (tx_thread_terminate and
tx_thread_delete); thread::join performs three. -/
theorem C2_amended_call_counts :
    (∀ t s, (mutex.get t s).1.length = 1)
    ∧ (∀ s, (mutex.lock s).1.length = 1)
    ∧ (∀ s, (mutex.try_lock s).1.length = 1)
    ∧ (∀ t s, (mutex.try_lock_for t s).1.length = 1)
    ∧ (∀ s, (mutex.unlock s).1.length = 1)
    ∧ (∀ s, (mutex.ctor s).1.length = 1)
    ∧ (∀ t s, (semaphore.get t s).1.length = 1)
    ∧ (∀ s, (semaphore.acquire s).1.length = 1)
    ∧ (∀ s, (semaphore.try_acquire s).1.length = 1)
    ∧ (∀ t s, (semaphore.try_acquire_for t s).1.length = 1)
    ∧ (∀ m d nm s, (semaphore.ctor m d nm s).1.length = 1)
    ∧ (∀ s, (thread.ctor s).1.length = 1)
    ∧ (∀ s, (thread.suspend s).1.length = 1)
    ∧ (∀ s, (thread.resume s).1.length = 1)
    ∧ (∀ p s, (thread.set_priority p s).1.length = 1)
    ∧ (∀ t s, (this_thread.sleep_for t s).1.length = 1)
    ∧ this_thread.yield.1.length = 1
    ∧ (∀ t, (thread.get_priority t).2.length = 0)
    ∧ (∀ m, (mutex.get_locking_thread m).2.length = 0)
    ∧ (∀ s, (semaphore.get_count s).2.length = 0)
    ∧ (∀ n oracle, (semaphore.release n oracle).1.length ≤ n
        ∧ ∀ c ∈ (semaphore.release n oracle).1, c = KernelCall.semaphore_put)
    ∧ (∀ st ts ds, (thread.dtor st ts ds).1.length ≤ 2)
    ∧ (∀ cs ns gs, (thread.join cs ns gs).calls.length = 3) := by
  refine ⟨fun t s => rfl, fun s => rfl, fun s => rfl, fun t s => rfl, fun s => rfl,
    fun s => rfl, fun t s => rfl, fun s => rfl, fun s => rfl, fun t s => rfl,
    fun m d nm s => rfl, fun s => rfl, fun s => rfl, fun s => rfl, fun p s => rfl,
    fun t s => rfl, rfl, fun t => rfl, fun m => rfl, fun s => rfl,
    fun n oracle => ⟨semaphore.put_length_le n oracle 0, semaphore.put_calls_are_puts n oracle 0⟩,
    fun st ts ds => ?_, fun cs ns gs => rfl⟩
  unfold thread.dtor
  split
  · simp
  · split <;> simp

/-- C3 counterexample: tx_thread_suspend returning the failure status 20
(TX_SUSPEND_ERROR) inside thread::suspend is surfaced neither as a boolean
nor as an assertion failure — the operation returns void regardless —
contradicting the claim that every kernel status code is surfaced one of
those two ways. -/
theorem C3_counterexample_suspend_discards_status :
    (20 : Nat) ≠ TX_SUCCESS
    ∧ (thread.suspend 20).2 = OpResult.retUnit
    ∧ (thread.suspend 20).2 ≠ OpResult.retBool true
    ∧ (thread.suspend 20).2 ≠ OpResult.retBool false
    ∧ (thread.suspend 20).2 ≠ OpResult.assertFailed
    ∧ thread.suspend 20 = thread.suspend TX_SUCCESS := by
  refine ⟨by decide, rfl, by decide, by decide, by decide, rfl⟩

/-- C3 amended: mutex::get and semaphore::get return true exactly when the
kernel call returns TX_SUCCESS and try_lock/try_acquire/try_*_for return
that same boolean; mutex::unlock and the thread constructor (and sleep_for)
turn a non-TX_SUCCESS status into an assertion failure; however
thread::suspend, thread::resume, thread::set_priority, the mutex
constructor and semaphore::release discard the status code entirely; no
operation returns the raw status code — every status-observing operation
behaves identically under any two failing status codes. -/
theorem C3_amended_status_surfacing :
    (∀ t s, (mutex.get t s).2 = OpResult.retBool (s == TX_SUCCESS))
    ∧ (∀ t s, (semaphore.get t s).2 = OpResult.retBool (s == TX_SUCCESS))
    ∧ (∀ s, mutex.try_lock s = mutex.get ⟨0⟩ s)
    ∧ (∀ t s, mutex.try_lock_for t s = mutex.get t s)
    ∧ (∀ s, semaphore.try_acquire s = semaphore.get ⟨0⟩ s)
    ∧ (∀ t s, semaphore.try_acquire_for t s = semaphore.get t s)
    ∧ (∀ s, (mutex.unlock s).2
        = if s = TX_SUCCESS then OpResult.retUnit else OpResult.assertFailed)
    ∧ (∀ s, (thread.ctor s).2
        = if s = TX_SUCCESS then OpResult.retUnit else OpResult.assertFailed)
    ∧ (∀ t s, (this_thread.sleep_for t s).2
        = if s = TX_SUCCESS then OpResult.retUnit else OpResult.assertFailed)
    ∧ (∀ s, (thread.suspend s).2 = OpResult.retUnit)
    ∧ (∀ s, (thread.resume s).2 = OpResult.retUnit)
    ∧ (∀ p s, (thread.set_priority p s).2 = OpResult.retUnit)
    ∧ (∀ s, (mutex.ctor s).2 = OpResult.retUnit)
    ∧ (∀ n oracle, (semaphore.release n oracle).2 = OpResult.retUnit)
    ∧ (∀ t s1 s2, s1 ≠ TX_SUCCESS → s2 ≠ TX_SUCCESS →
        mutex.get t s1 = mutex.get t s2
        ∧ semaphore.get t s1 = semaphore.get t s2
        ∧ mutex.unlock s1 = mutex.unlock s2
        ∧ thread.ctor s1 = thread.ctor s2
        ∧ this_thread.sleep_for t s1 = this_thread.sleep_for t s2) := by
  refine ⟨fun t s => rfl, fun t s => rfl, fun s => rfl, fun t s => rfl, fun s => rfl,
    fun t s => rfl, fun s => rfl, fun s => rfl, fun t s => rfl, fun s => rfl,
    fun s => rfl, fun p s => rfl, fun s => rfl, fun n oracle => rfl, ?_⟩
  intro t s1 s2 h1 h2
  have b1 : (s1 == TX_SUCCESS) = false := by simpa using h1
  have b2 : (s2 == TX_SUCCESS) = false := by simpa using h2
  refine ⟨?_, ?_, ?_, ?_, ?_⟩
  · simp [mutex.get, b1, b2]
  · simp [semaphore.get, b1, b2]
  · simp [mutex.unlock, if_neg h1, if_neg h2]
  · simp [thread.ctor, if_neg h1, if_neg h2]
  · simp [this_thread.sleep_for, if_neg h1, if_neg h2]

/-- C3 amended witness: the conditional part at the concrete failing status
codes 5 and 6, on a zero-tick timeout. -/
theorem C3_amended_status_surfacing_witness :
    mutex.get ⟨0⟩ 5 = mutex.get ⟨0⟩ 6
    ∧ semaphore.get ⟨0⟩ 5 = semaphore.get ⟨0⟩ 6
    ∧ mutex.unlock 5 = mutex.unlock 6
    ∧ thread.ctor 5 = thread.ctor 6
    ∧ this_thread.sleep_for ⟨0⟩ 5 = this_thread.sleep_for ⟨0⟩ 6 :=
  C3_amended_status_surfacing.2.2.2.2.2.2.2.2.2.2.2.2.2.2 ⟨0⟩ 5 6 (by decide) (by decide)

/-- C4: thread::get_state re-labels the kernel thread state: TX_COMPLETED
maps to completed, TX_TERMINATED to terminated, TX_READY to running when
the thread is the current one and ready otherwise, and every other kernel
state value maps to suspended; the function is a pure read. -/
theorem C4_get_state_relabelling :
    (∀ c, thread.get_state TX_COMPLETED c = thread.state.completed)
    ∧ (∀ c, thread.get_state TX_TERMINATED c = thread.state.terminated)
    ∧ thread.get_state TX_READY true = thread.state.running
    ∧ thread.get_state TX_READY false = thread.state.ready
    ∧ (∀ s c, s ≠ TX_READY → s ≠ TX_COMPLETED → s ≠ TX_TERMINATED →
        thread.get_state s c = thread.state.suspended) := by
  refine ⟨fun c => by cases c <;> decide, fun c => by cases c <;> decide, by decide, by decide, ?_⟩
  intro s c h0 h1 h2
  simp [thread.get_state, if_neg h0, if_neg h1, if_neg h2]

/-- C4 witness: the default branch of C4 at the concrete kernel state
TX_SLEEP (4). -/
theorem C4_get_state_relabelling_witness :
    thread.get_state 4 true = thread.state.suspended :=
  C4_get_state_relabelling.2.2.2.2 4 true (by decide) (by decide) (by decide)

/-- C5: the put loop of semaphore::put issues one tx_semaphore_put per
requested count when every call succeeds, and on the first kernel failure
at position k it issues exactly the k successful calls plus the failing
one and stops — no retry, no further call, hence no undo of the successful
increments — while the public release discards the resulting failure flag,
so a release that applied only 0 < k < n increments is unreported. -/
theorem C5_put_stops_at_first_failure :
    (∀ n oracle, (∀ j, oracle j = TX_SUCCESS) →
      semaphore.put n oracle 0 = (List.replicate n KernelCall.semaphore_put, true)
      ∧ semaphore.release n oracle
          = (List.replicate n KernelCall.semaphore_put, OpResult.retUnit))
    ∧ (∀ n k oracle, k < n → (∀ j, j < k → oracle j = TX_SUCCESS) →
        oracle k ≠ TX_SUCCESS →
      semaphore.put n oracle 0 = (List.replicate (k + 1) KernelCall.semaphore_put, false)
      ∧ semaphore.release n oracle
          = (List.replicate (k + 1) KernelCall.semaphore_put, OpResult.retUnit)) := by
  constructor
  · intro n oracle h
    have hp := semaphore.put_all_success n oracle 0 h
    exact ⟨hp, by simp [semaphore.release, hp]⟩
  · intro n k oracle hk hsucc hfail
    have hp := semaphore.put_first_failure k n 0 oracle hk
      (fun j hj => by simpa using hsucc j hj) (by simpa using hfail)
    exact ⟨hp, by simp [semaphore.release, hp]⟩

/-- C5 witness: both parts of C5 at concrete inputs — three all-successful
releases, and a three-count release whose second kernel put fails (k = 1),
a strictly partial release. -/
theorem C5_put_stops_at_first_failure_witness :
    (semaphore.put 3 (fun _ => 0) 0
        = (List.replicate 3 KernelCall.semaphore_put, true)
      ∧ semaphore.release 3 (fun _ => 0)
        = (List.replicate 3 KernelCall.semaphore_put, OpResult.retUnit))
    ∧ (semaphore.put 3 (fun i => if i = 0 then 0 else 5) 0
        = (List.replicate 2 KernelCall.semaphore_put, false)
      ∧ semaphore.release 3 (fun i => if i = 0 then 0 else 5)
        = (List.replicate 2 KernelCall.semaphore_put, OpResult.retUnit)) := by
  constructor
  · exact C5_put_stops_at_first_failure.1 3 (fun _ => 0) (fun j => rfl)
  · exact C5_put_stops_at_first_failure.2 3 1 (fun i => if i = 0 then 0 else 5)
      (by decide)
      (fun j hj => by
        have hj0 : j = 0 := by omega
        subst hj0
        rfl)
      (by decide)

/-- C6: to_ticks on a duration is its tick count, to_ticks on a time point
is the tick count of its time since epoch, the distinguished duration
infinity converts to TX_WAIT_FOREVER, and lock, acquire, sleep_for and the
try_*_for operations all hand the kernel the to_ticks conversion of their
wait time. -/
theorem C6_tick_conversion :
    (∀ d : duration, to_ticks d = d.count)
    ∧ (∀ t : time_point, t.to_ticks = to_ticks t.since_epoch)
    ∧ to_ticks infinity = TX_WAIT_FOREVER
    ∧ infinite_delay = TX_WAIT_FOREVER
    ∧ (∀ s, (mutex.lock s).1 = [KernelCall.mutex_get (to_ticks infinity)])
    ∧ (∀ s, (semaphore.acquire s).1 = [KernelCall.semaphore_get (to_ticks infinity)])
    ∧ (∀ d s, (this_thread.sleep_for d s).1 = [KernelCall.thread_sleep (to_ticks d)])
    ∧ (∀ d s, (mutex.try_lock_for d s).1 = [KernelCall.mutex_get (to_ticks d)])
    ∧ (∀ d s, (semaphore.try_acquire_for d s).1 = [KernelCall.semaphore_get (to_ticks d)]) :=
  ⟨fun d => rfl, fun t => rfl, rfl, rfl, fun s => rfl, fun s => rfl,
    fun d s => rfl, fun d s => rfl, fun d s => rfl⟩

/-- C7: the blocking and non-blocking variants differ only in the forwarded
timeout: lock and acquire are the timed get at the infinite timeout with
the boolean discarded, try_lock and try_acquire are the timed get at a
zero-tick timeout, and the timed get itself is a single kernel call with
the converted timeout — no waiting, ordering or cancellation logic is
added around it. -/
theorem C7_blocking_variants_forward_timeout :
    (∀ s, mutex.lock s = ((mutex.get infinity s).1, OpResult.retUnit))
    ∧ (∀ s, mutex.try_lock s = mutex.get ⟨0⟩ s)
    ∧ (∀ s, semaphore.acquire s = ((semaphore.get infinity s).1, OpResult.retUnit))
    ∧ (∀ s, semaphore.try_acquire s = semaphore.get ⟨0⟩ s)
    ∧ (∀ t s, mutex.get t s
        = ([KernelCall.mutex_get (to_ticks t)], OpResult.retBool (s == TX_SUCCESS)))
    ∧ (∀ t s, semaphore.get t s
        = ([KernelCall.semaphore_get (to_ticks t)], OpResult.retBool (s == TX_SUCCESS)))
    ∧ to_ticks ⟨0⟩ = 0
    ∧ to_ticks infinity = TX_WAIT_FOREVER :=
  ⟨fun s => rfl, fun s => rfl, fun s => rfl, fun s => rfl,
    fun t s => rfl, fun t s => rfl, rfl, rfl⟩

/-- C8: the observer accessors are pure reads of the kernel-maintained
fields: get_priority returns the stored user priority,
get_locking_thread returns the stored owner (none for unlocked), and
get_count returns the stored count; each issues no kernel call and, being
a pure function of the control block, changes no field. -/
theorem C8_observers_are_pure_reads :
    (∀ t : TX_THREAD, thread.get_priority t = (t.tx_thread_user_priority, []))
    ∧ (∀ m : TX_MUTEX, mutex.get_locking_thread m = (m.tx_mutex_owner, []))
    ∧ (∀ s : TX_SEMAPHORE, semaphore.get_count s = (s.tx_semaphore_count, [])) :=
  ⟨fun t => rfl, fun m => rfl, fun s => rfl⟩

/-- C9: the semaphore constructor hands the kernel only the name and the
initial count, ignoring its max parameter, so counting semaphores with
different ceilings and equal initial counts are constructed identically
(and all further operations take no ceiling argument); replaying two
successful releases against the kernel count model drives the count of a
ceiling-1 counting semaphore to 2, above max(). -/
theorem C9_max_parameter_ignored :
    (∀ M1 M2 d s, counting_semaphore.ctor M1 d s = counting_semaphore.ctor M2 d s)
    ∧ (∀ M d s, counting_semaphore.ctor M d s
        = ([KernelCall.semaphore_create "counting_semaphore" d],
           if s = TX_SUCCESS then OpResult.retUnit else OpResult.assertFailed))
    ∧ (semaphore.get_count
        (run_sem_calls (semaphore.release 2 (fun _ => TX_SUCCESS)).1
          (tx_semaphore_create 0))).1 = 2
    ∧ 2 > counting_semaphore.max 1 :=
  ⟨fun M1 M2 d s => rfl, fun M d s => rfl, by decide, by decide⟩

/-- C10: the thread destructor issues tx_thread_terminate exactly when the
kernel thread state is not TX_COMPLETED (so ready, running, suspended and
already-terminated threads are all passed to terminate), asserting its
success, and — whenever the terminate assertion passes — always follows
with tx_thread_delete, asserting its success. -/
theorem C10_dtor_terminate_then_delete (st ts ds : Nat) :
    (KernelCall.thread_terminate ∈ (thread.dtor st ts ds).1 ↔ st ≠ TX_COMPLETED)
    ∧ (ts = TX_SUCCESS →
        (thread.dtor st ts ds).1
          = (if st = TX_COMPLETED then [] else [KernelCall.thread_terminate])
            ++ [KernelCall.thread_delete]
        ∧ (thread.dtor st ts ds).2
          = (if ds = TX_SUCCESS then OpResult.retUnit else OpResult.assertFailed))
    ∧ (st ≠ TX_COMPLETED → ts ≠ TX_SUCCESS →
        thread.dtor st ts ds = ([KernelCall.thread_terminate], OpResult.assertFailed)) := by
  unfold thread.dtor
  refine ⟨?_, ?_, ?_⟩
  · by_cases h : st = TX_COMPLETED
    · simp [h]
    · rw [if_neg h]
      split <;> simp [h]
  · intro hts
    by_cases h : st = TX_COMPLETED
    · simp [h]
    · simp [h, hts]
  · intro h hts
    rw [if_neg h, if_neg hts]

/-- C10 witness: C10 at the concrete inputs of an already-terminated thread
with both kernel calls succeeding, and of a ready thread whose terminate
fails. -/
theorem C10_dtor_terminate_then_delete_witness :
    ((thread.dtor TX_TERMINATED TX_SUCCESS TX_SUCCESS).1
        = (if TX_TERMINATED = TX_COMPLETED then [] else [KernelCall.thread_terminate])
          ++ [KernelCall.thread_delete]
      ∧ (thread.dtor TX_TERMINATED TX_SUCCESS TX_SUCCESS).2
        = (if TX_SUCCESS = TX_SUCCESS then OpResult.retUnit else OpResult.assertFailed))
    ∧ thread.dtor TX_READY 18 TX_SUCCESS
        = ([KernelCall.thread_terminate], OpResult.assertFailed) :=
  ⟨(C10_dtor_terminate_then_delete TX_TERMINATED TX_SUCCESS TX_SUCCESS).2.1 rfl,
   (C10_dtor_terminate_then_delete TX_READY 18 TX_SUCCESS).2.2 (by decide) (by decide)⟩

end threadx
